import Mathlib

/-!
# Shallow embedding of the streaming risk-assessment engine

This file embeds the detection and scoring core of the ride-hailing fraud
engine (`app/pipeline/*.py`, `app/scoring/*.py`) in Lean 4 and proves the
spec claims about it.

Modelling conventions:

* A Python transaction dict becomes the `Transaction` structure.  Fields the
  code reads with `.get(key)` become `Option` fields (`none` models both a
  missing key and an explicit `null`).
* Timestamps are integer numbers of seconds.  A history timestamp of `none`
  models an ISO string that `datetime.fromisoformat` rejects — every detector
  wraps the parse in `try/except ValueError: continue`, so such entries are
  silently skipped inside the filters.  An unparseable timestamp on the
  *current* transaction raises in the detector prologue; that is the
  `PyErr.badTimestamp` outcome.
* Python exceptions are modelled with `Except PyErr`: `typeError` stands for
  the `TypeError` raised when a `None` value flows into `math.radians` /
  string slicing, `keyError` for `transaction["transaction_id"]` on a
  missing key.
* Python floats (amounts, coordinates, derived statistics) are modelled as
  exact fractions `Q` (numerator/denominator pairs of integers, not
  normalised so that every operation is kernel-computable).  All divisions
  performed by the code have positive divisors on every reachable path, so
  denominators built by the embedding stay positive and the cross-multiplied
  comparisons `Q.lt`/`Q.le` implement the rational order.  `round` is
  Python 3's round-half-to-even (`pythonRound`).
* `haversine_km` (transcendental) and `math.sqrt` are abstracted as explicit
  function parameters `hav` and `sqrtQ`; every theorem quantifies over them,
  so nothing proved depends on their values.
* Detector scores are integer-valued in the source (every arithmetic step
  combines integer literals with `max`/`min`/`+`), so scores are `ℤ` here.
* Triggered rule strings keep their tag and interpolated data as
  constructors of the inductive type `Rule`; the fixed English text around
  the data and the float formatting are elided.
-/

namespace RiskEngine

/-- Exact fractions standing in for Python floats.  `den` is kept positive
by construction (the source divides only by values checked positive), and
operations do not normalise, so all arithmetic reduces in the kernel. -/
structure Q where
  num : ℤ
  den : ℤ
deriving DecidableEq, Repr

/-- Embed an integer. -/
def Q.ofInt (n : ℤ) : Q := ⟨n, 1⟩

/-- Fraction addition (no normalisation). -/
def Q.add (a b : Q) : Q := ⟨a.num * b.den + b.num * a.den, a.den * b.den⟩

/-- Fraction subtraction (no normalisation). -/
def Q.sub (a b : Q) : Q := ⟨a.num * b.den - b.num * a.den, a.den * b.den⟩

/-- Fraction multiplication (no normalisation). -/
def Q.mul (a b : Q) : Q := ⟨a.num * b.num, a.den * b.den⟩

/-- Fraction division.  The source only divides by values it has checked to
be positive, so the zero-divisor branch is unreachable; the sign of the
divisor's numerator is moved into the numerator to keep `den` positive. -/
def Q.div (a b : Q) : Q :=
  if b.num = 0 then ⟨0, 1⟩ else ⟨a.num * b.den * b.num.sign, a.den * b.num.natAbs⟩

/-- Absolute value (correct for positive `den`). -/
def Q.abs (a : Q) : Q := ⟨|a.num|, a.den⟩

/-- Strict order by cross-multiplication (correct for positive `den`s). -/
def Q.lt (a b : Q) : Prop := a.num * b.den < b.num * a.den

/-- Non-strict order by cross-multiplication (correct for positive `den`s). -/
def Q.le (a b : Q) : Prop := a.num * b.den ≤ b.num * a.den

instance (a b : Q) : Decidable (Q.lt a b) := inferInstanceAs (Decidable (_ < _))

instance (a b : Q) : Decidable (Q.le a b) := inferInstanceAs (Decidable (_ ≤ _))

/-- Python's `sum` over a list of floats (left fold starting at `0`). -/
def qsum (xs : List Q) : Q := xs.foldl Q.add (Q.ofInt 0)

/-- Python 3 `round` to an integer: round half to even.  For a fraction
with positive denominator, `num / den` (`Int` division is Euclidean, which
agrees with the floor for positive divisors) is the floor and `rN/den` the
fractional part. -/
def pythonRound (q : Q) : ℤ :=
  let f := q.num / q.den
  let rN := q.num - f * q.den
  if 2 * rN < q.den then f
  else if q.den < 2 * rN then f + 1
  else if f % 2 = 0 then f else f + 1

instance {ε α : Type} [DecidableEq ε] [DecidableEq α] : DecidableEq (Except ε α) := fun
  | .error a, .error b =>
    if h : a = b then isTrue (by rw [h]) else isFalse (fun c => by cases c; exact h rfl)
  | .error _, .ok _ => isFalse (fun h => by cases h)
  | .ok _, .error _ => isFalse (fun h => by cases h)
  | .ok a, .ok b =>
    if h : a = b then isTrue (by rw [h]) else isFalse (fun c => by cases c; exact h rfl)

/-- Python exceptions that the detection core can raise. -/
inductive PyErr where
  | badTimestamp : PyErr
  | typeError : PyErr
  | keyError : PyErr
deriving DecidableEq, Repr

/-- The three risk levels of `rule_based.py` / `hybrid.py`. -/
inductive RiskLevel where
  | low_risk : RiskLevel
  | medium_risk : RiskLevel
  | high_risk : RiskLevel
deriving DecidableEq, Repr

/-- Triggered-rule strings, one constructor per f-string in the source, with
the interpolated values as arguments. -/
inductive Rule where
  | VELOCITY_EXTREME (n : ℕ)
  | VELOCITY_VERY_HIGH (n : ℕ)
  | VELOCITY_HIGH (n : ℕ)
  | VELOCITY_MODERATE (n : ℕ)
  | VELOCITY_2H_HIGH (n : ℕ)
  | VELOCITY_24H_HIGH (n : ℕ)
  | GEO_IMPOSSIBLE_TRAVEL (d dt v : Q) (cityFrom cityTo : Option String)
  | GEO_SUSPICIOUS_TRAVEL (d dt v : Q)
  | GEO_COUNTRY_CHANGE (countryFrom countryTo : Option String) (dt : Q)
  | AMOUNT_EXTREME (z amt mean : Q)
  | AMOUNT_HIGH (z amt mean : Q)
  | AMOUNT_ELEVATED (z amt mean : Q)
  | CARD_TESTING_CONFIRMED (n : ℕ) (avg amt : Q)
  | CARD_TESTING_LIKELY (n : ℕ) (amt : Q)
  | CARD_TESTING_PROBING (n : ℕ) (card : Option String)
  | CARD_TESTING_POSSIBLE (n : ℕ) (amt : Q)
  | COLLUSION_HIGH (n : ℕ) (user driver : Option String)
  | COLLUSION_MODERATE (n : ℕ) (user driver : Option String)
  | COLLUSION_CIRCULAR (n : ℕ)
  | COLLUSION_CIRCULAR_CURRENT (d : Q)
  | ATO_HIGH (card country : Option String)
  | ATO_MODERATE (card city : Option String)
  | ATO_NEW_CARD_DEVICE (card : Option String)
  | ATO_NEW_CARD (card user : Option String)
  | ATO_NEW_DEVICE_COUNTRY (country : Option String)
  | ATO_RAPID_USE (n : ℕ)
  | FRAUD_RING_HIGH (n : ℕ) (device : String)
  | FRAUD_RING_MODERATE (n : ℕ) (device : String)
  | FRAUD_RING_LOW (n : ℕ)
  | FRAUD_RING_SIMILAR_AMOUNTS (ratio avg : Q)
  | FRAUD_RING_TIME_CLUSTER (n : ℕ) (span : Q)
deriving DecidableEq, Repr

/-- A transaction record (a Python dict).  `none` models a missing key or an
explicit `null`; for `timestamp` it models an unparseable ISO string. -/
structure Transaction where
  transaction_id : Option String := none
  timestamp : Option ℤ := none
  user_id : Option String := none
  driver_id : Option String := none
  card_last4 : Option String := none
  device_id : Option String := none
  pickup_city : Option String := none
  pickup_country : Option String := none
  pickup_lat : Option Q := none
  pickup_lng : Option Q := none
  dropoff_lat : Option Q := none
  dropoff_lng : Option Q := none
  amount : Option Q := none
  currency : Option String := none
deriving DecidableEq, Repr

/-- Python truthiness of an optional float: `None` and `0.0` are falsy. -/
def truthy : Option Q → Bool
  | none => false
  | some q => q.num != 0

/-! ## Velocity detector (`app/pipeline/velocity.py`) -/

/-- `count_in_window`: count history entries whose `field` equals `value`
and whose parseable timestamp lies in the inclusive window
`[current_time - hours·3600, current_time]`.  Entries with unparseable
timestamps are skipped (`except ValueError: continue`). -/
def count_in_window (transactions : List Transaction)
    (field : Transaction → Option String) (value : Option String)
    (current_time : ℤ) (hours : ℤ) : ℕ :=
  let window_start := current_time - hours * 3600
  transactions.countP (fun txn =>
    match txn.timestamp with
    | none => false
    | some t => decide (field txn = value ∧ window_start ≤ t ∧ t ≤ current_time))

/-- `calculate_velocity_score`. -/
def calculate_velocity_score (transaction : Transaction)
    (all_transactions : List Transaction) : Except PyErr (ℤ × List Rule) :=
  match transaction.timestamp with
  | none => .error .badTimestamp
  | some txn_time =>
    let user_1h := count_in_window all_transactions (·.user_id) transaction.user_id txn_time 1
    let user_24h := count_in_window all_transactions (·.user_id) transaction.user_id txn_time 24
    let card_1h := count_in_window all_transactions (·.card_last4) transaction.card_last4 txn_time 1
    let card_2h := count_in_window all_transactions (·.card_last4) transaction.card_last4 txn_time 2
    let device_1h := count_in_window all_transactions (·.device_id) transaction.device_id txn_time 1
    let max_1h := max user_1h (max card_1h device_1h)
    let max_2h := max card_2h user_1h
    let part1 : List ℤ × List Rule :=
      if 10 ≤ max_1h then ([100], [.VELOCITY_EXTREME max_1h])
      else if 8 ≤ max_1h then ([80], [.VELOCITY_VERY_HIGH max_1h])
      else if 6 ≤ max_1h then ([50], [.VELOCITY_HIGH max_1h])
      else if 3 ≤ max_1h then ([20], [.VELOCITY_MODERATE max_1h])
      else ([], [])
    let part2 : List ℤ × List Rule :=
      if 10 ≤ max_2h then ([90], [.VELOCITY_2H_HIGH max_2h]) else ([], [])
    let part3 : List ℤ × List Rule :=
      if 15 ≤ user_24h then ([60], [.VELOCITY_24H_HIGH user_24h]) else ([], [])
    let scores := part1.1 ++ part2.1 ++ part3.1
    let triggered := part1.2 ++ part2.2 ++ part3.2
    let final_score := if scores.isEmpty then 0 else scores.foldl max 0
    .ok (min final_score 100, triggered)

/-! ## Geographic detector (`app/pipeline/geographic.py`)

`haversine_km` is the abstract parameter `hav`. -/

/-- The per-prior loop of `calculate_geographic_score`.  Accessing a `None`
pickup coordinate of either the prior or the current transaction raises
`TypeError` inside `haversine_km` (`math.radians(None)`). -/
def geoLoop (hav : Q → Q → Q → Q → Q) (transaction : Transaction) (txn_time : ℤ) :
    List (Transaction × ℤ) → ℤ → List Rule → Except PyErr (ℤ × List Rule)
  | [], max_score, triggered => .ok (min max_score 100, triggered)
  | (prev, prev_time) :: rest, max_score, triggered =>
    match prev.pickup_lat, prev.pickup_lng, transaction.pickup_lat, transaction.pickup_lng with
    | some plat, some plng, some tlat, some tlng =>
      let distance_km := hav plat plng tlat tlng
      let time_diff_hours := Q.div (Q.ofInt (txn_time - prev_time)) (Q.ofInt 3600)
      if Q.le time_diff_hours (Q.ofInt 0) then
        geoLoop hav transaction txn_time rest max_score triggered
      else
        let speed_kmh := Q.div distance_km time_diff_hours
        if Q.lt (Q.ofInt 900) speed_kmh ∧ Q.lt (Q.ofInt 100) distance_km then
          geoLoop hav transaction txn_time rest (max max_score 100) (triggered ++
            [.GEO_IMPOSSIBLE_TRAVEL distance_km time_diff_hours speed_kmh
              prev.pickup_city transaction.pickup_city])
        else if Q.lt (Q.ofInt 500) speed_kmh ∧ Q.lt (Q.ofInt 100) distance_km then
          geoLoop hav transaction txn_time rest (max max_score 70) (triggered ++
            [.GEO_SUSPICIOUS_TRAVEL distance_km time_diff_hours speed_kmh])
        else if prev.pickup_country ≠ transaction.pickup_country ∧
            Q.lt time_diff_hours (Q.ofInt 3) then
          geoLoop hav transaction txn_time rest (max max_score 80) (triggered ++
            [.GEO_COUNTRY_CHANGE prev.pickup_country transaction.pickup_country
              time_diff_hours])
        else
          geoLoop hav transaction txn_time rest max_score triggered
    | _, _, _, _ => .error .typeError

/-- `calculate_geographic_score`. -/
def calculate_geographic_score (hav : Q → Q → Q → Q → Q) (transaction : Transaction)
    (all_transactions : List Transaction) : Except PyErr (ℤ × List Rule) :=
  match transaction.timestamp with
  | none => .error .badTimestamp
  | some txn_time =>
    let user_txns : List (Transaction × ℤ) := all_transactions.filterMap (fun t =>
      if t.user_id = transaction.user_id ∧ t.transaction_id ≠ transaction.transaction_id then
        match t.timestamp with
        | none => none
        | some tt => if tt < txn_time then some (t, tt) else none
      else none)
    if user_txns.isEmpty then .ok (0, [])
    else
      let sorted := List.insertionSort (fun a b => b.2 ≤ a.2) user_txns
      geoLoop hav transaction txn_time (sorted.take 5) 0 []

/-! ## Amount detector (`app/pipeline/amount.py`)

`math.sqrt` is the abstract parameter `sqrtQ`. -/

/-- Personal history amounts: same user, same currency, parseable timestamp
strictly before `txn_time`, different `transaction_id`. -/
def amountUserAmounts (transaction : Transaction) (all_transactions : List Transaction)
    (txn_time : ℤ) : List Q :=
  all_transactions.filterMap (fun t =>
    if t.user_id = transaction.user_id ∧ t.currency = transaction.currency ∧
        t.transaction_id ≠ transaction.transaction_id then
      match t.timestamp with
      | none => none
      | some tt => if tt < txn_time then some (t.amount.getD (Q.ofInt 0)) else none
    else none)

/-- The z-score block of `calculate_amount_score`: population mean and
variance over the selected amounts, `std = 1` when the variance is zero,
thresholds raised on the population path. -/
def amountStatScore (sqrtQ : Q → Q) (amount : Q) (user_amounts : List Q)
    (using_population : Bool) : ℤ × List Rule :=
  let mean := Q.div (qsum user_amounts) (Q.ofInt user_amounts.length)
  let variance := Q.div
    (qsum (user_amounts.map (fun x => Q.mul (Q.sub x mean) (Q.sub x mean))))
    (Q.ofInt user_amounts.length)
  let std := if Q.lt (Q.ofInt 0) variance then sqrtQ variance else Q.ofInt 1
  let z_score := if Q.lt (Q.ofInt 0) std then Q.div (Q.sub amount mean) std else Q.ofInt 0
  let high_threshold := if using_population then Q.ofInt 4 else Q.ofInt 3
  let med_threshold := if using_population then Q.ofInt 3 else Q.ofInt 2
  let low_threshold := if using_population then Q.mk 25 10 else Q.mk 15 10
  if Q.lt high_threshold z_score then (80, [.AMOUNT_EXTREME z_score amount mean])
  else if Q.lt med_threshold z_score then (50, [.AMOUNT_HIGH z_score amount mean])
  else if Q.lt low_threshold z_score then (30, [.AMOUNT_ELEVATED z_score amount mean])
  else (0, [])

/-- `calculate_amount_score`.  Note the fallback list comprehension filters
on `currency` only: no user filter and no timestamp filter. -/
def calculate_amount_score (sqrtQ : Q → Q) (transaction : Transaction)
    (all_transactions : List Transaction) : Except PyErr (ℤ × List Rule) :=
  match transaction.timestamp with
  | none => .error .badTimestamp
  | some txn_time =>
    let amount := transaction.amount.getD (Q.ofInt 0)
    let user_amounts := amountUserAmounts transaction all_transactions txn_time
    if user_amounts.length < 5 then
      let currency_amounts := (all_transactions.filter
          (fun t => decide (t.currency = transaction.currency))).map
        (fun t => t.amount.getD (Q.ofInt 0))
      if currency_amounts.length < 10 then .ok (0, [])
      else .ok (amountStatScore sqrtQ amount currency_amounts true)
    else .ok (amountStatScore sqrtQ amount user_amounts false)

/-! ## Card-testing detector (`app/pipeline/card_testing.py`) -/

/-- `calculate_card_testing_score`. -/
def calculate_card_testing_score (transaction : Transaction)
    (all_transactions : List Transaction) : Except PyErr (ℤ × List Rule) :=
  match transaction.timestamp with
  | none => .error .badTimestamp
  | some txn_time =>
    let amount := transaction.amount.getD (Q.ofInt 0)
    let card_txns := all_transactions.filterMap (fun t =>
      if t.card_last4 = transaction.card_last4 ∧
          t.transaction_id ≠ transaction.transaction_id then
        match t.timestamp with
        | none => none
        | some tt =>
          let time_diff := Q.div (Q.ofInt (txn_time - tt)) (Q.ofInt 3600)
          if Q.lt (Q.ofInt 0) time_diff ∧ Q.le time_diff (Q.ofInt 24) then some t else none
      else none)
    if card_txns.isEmpty then .ok (0, [])
    else
      let small_threshold : Q :=
        match transaction.currency with
        | some "NGN" => Q.ofInt 300
        | some "KES" => Q.ofInt 150
        | some "ZAR" => Q.ofInt 30
        | _ => Q.ofInt 300
      let small_txns := card_txns.filter
        (fun t => decide (Q.lt (t.amount.getD (Q.ofInt 0)) small_threshold))
      let num_small := small_txns.length
      if 3 ≤ num_small then
        -- the source guards the division with `if num_small > 0 else 1`,
        -- vacuous under `num_small >= 3`
        let avg_small := Q.div (qsum (small_txns.map (fun t => t.amount.getD (Q.ofInt 0))))
          (Q.ofInt num_small)
        if Q.lt (Q.mul avg_small (Q.ofInt 10)) amount then
          .ok (95, [.CARD_TESTING_CONFIRMED num_small avg_small amount])
        else if Q.lt (Q.mul avg_small (Q.ofInt 5)) amount then
          .ok (70, [.CARD_TESTING_LIKELY num_small amount])
        else
          .ok (50, [.CARD_TESTING_PROBING num_small transaction.card_last4])
      else if 2 ≤ num_small ∧ Q.lt (Q.mul small_threshold (Q.ofInt 10)) amount then
        .ok (40, [.CARD_TESTING_POSSIBLE num_small amount])
      else .ok (0, [])

/-! ## Collusion detector (`app/pipeline/collusion.py`) -/

/-- The driver–passenger pair's transactions in the inclusive 7-day window. -/
def collusionPairTxns (transaction : Transaction) (all_transactions : List Transaction)
    (txn_time : ℤ) : List Transaction :=
  let window_start := txn_time - 7 * 86400
  all_transactions.filterMap (fun t =>
    if t.user_id = transaction.user_id ∧ t.driver_id = transaction.driver_id then
      match t.timestamp with
      | none => none
      | some tt => if window_start ≤ tt ∧ tt ≤ txn_time then some t else none
    else none)

/-- Circular priors: pair transactions whose pickup-to-dropoff distance is
below 0.5 km, missing coordinates defaulting to 0 (`t.get("pickup_lat", 0)`). -/
def collusionCircularCount (hav : Q → Q → Q → Q → Q) (pair_txns : List Transaction) : ℕ :=
  pair_txns.countP (fun t => decide (Q.lt
    (hav (t.pickup_lat.getD (Q.ofInt 0)) (t.pickup_lng.getD (Q.ofInt 0))
      (t.dropoff_lat.getD (Q.ofInt 0)) (t.dropoff_lng.getD (Q.ofInt 0)))
    (Q.mk 5 10)))

/-- Pair-count base score plus the circular-priors boost — the state of
`score`/`triggered` just before the current-transaction circular check. -/
def collusionStage (hav : Q → Q → Q → Q → Q) (transaction : Transaction)
    (all_transactions : List Transaction) (txn_time : ℤ) : ℤ × List Rule :=
  let pair_txns := collusionPairTxns transaction all_transactions txn_time
  let pair_count := pair_txns.length
  let circular_count := collusionCircularCount hav pair_txns
  let base : ℤ × List Rule :=
    if 8 ≤ pair_count then
      (80, [.COLLUSION_HIGH pair_count transaction.user_id transaction.driver_id])
    else if 5 ≤ pair_count then
      (40, [.COLLUSION_MODERATE pair_count transaction.user_id transaction.driver_id])
    else (0, [])
  if 3 ≤ circular_count then
    (min (base.1 + 20) 100, base.2 ++ [.COLLUSION_CIRCULAR circular_count])
  else base

/-- `calculate_collusion_score`.  The final block is guarded by
`if pickup_lat and dropoff_lat:` — Python float truthiness, so it is skipped
when either latitude is missing **or equal to 0**; a missing longitude then
raises `TypeError` inside `haversine_km`. -/
def calculate_collusion_score (hav : Q → Q → Q → Q → Q) (transaction : Transaction)
    (all_transactions : List Transaction) : Except PyErr (ℤ × List Rule) :=
  match transaction.timestamp with
  | none => .error .badTimestamp
  | some txn_time =>
    let pair_count := (collusionPairTxns transaction all_transactions txn_time).length
    let stage := collusionStage hav transaction all_transactions txn_time
    if truthy transaction.pickup_lat && truthy transaction.dropoff_lat then
      match transaction.pickup_lat, transaction.pickup_lng,
          transaction.dropoff_lat, transaction.dropoff_lng with
      | some plat, some plng, some dlat, some dlng =>
        let current_distance := hav plat plng dlat dlng
        if Q.lt current_distance (Q.mk 5 10) ∧ 3 ≤ pair_count then
          .ok (min (stage.1 + 15) 100,
            stage.2 ++ [.COLLUSION_CIRCULAR_CURRENT current_distance])
        else .ok stage
      | _, _, _, _ => .error .typeError
    else .ok stage

/-! ## Account-takeover detector (`app/pipeline/account_takeover.py`) -/

/-- The user's other transactions with parseable timestamps in the window
`[txn_time - 30 days, txn_time)`. -/
def atoUserHistory (transaction : Transaction) (all_transactions : List Transaction)
    (txn_time : ℤ) : List Transaction :=
  let window_start := txn_time - 30 * 86400
  all_transactions.filterMap (fun t =>
    if t.user_id = transaction.user_id ∧
        t.transaction_id ≠ transaction.transaction_id then
      match t.timestamp with
      | none => none
      | some tt => if window_start ≤ tt ∧ tt < txn_time then some t else none
    else none)

/-- `card_last4 not in set(t.get("card_last4") for t in user_history)`. -/
def is_new_card (transaction : Transaction) (user_history : List Transaction) : Bool :=
  !((user_history.map (·.card_last4)).contains transaction.card_last4)

/-- `device_id not in set(...)`. -/
def is_new_device (transaction : Transaction) (user_history : List Transaction) : Bool :=
  !((user_history.map (·.device_id)).contains transaction.device_id)

/-- `pickup_country not in set(...)`. -/
def is_new_country (transaction : Transaction) (user_history : List Transaction) : Bool :=
  !((user_history.map (·.pickup_country)).contains transaction.pickup_country)

/-- `pickup_city not in set(...)`. -/
def is_new_city (transaction : Transaction) (user_history : List Transaction) : Bool :=
  !((user_history.map (·.pickup_city)).contains transaction.pickup_city)

/-- `recent_new_card_txns`: all history entries with the user's id and the
current card, with no time filter. -/
def atoRapidCount (transaction : Transaction) (all_transactions : List Transaction) : ℕ :=
  all_transactions.countP (fun t =>
    decide (t.user_id = transaction.user_id ∧ t.card_last4 = transaction.card_last4))

/-- `calculate_ato_score`.  Note the branch order of the base clauses in the
source: `new card + new country`, then `new card + new city`, then
`new card + new device`, then `new card` alone. -/
def calculate_ato_score (transaction : Transaction)
    (all_transactions : List Transaction) : Except PyErr (ℤ × List Rule) :=
  match transaction.timestamp with
  | none => .error .badTimestamp
  | some txn_time =>
    let user_history := atoUserHistory transaction all_transactions txn_time
    if user_history.isEmpty then .ok (0, [])
    else
      let n_card := is_new_card transaction user_history
      let n_device := is_new_device transaction user_history
      let n_country := is_new_country transaction user_history
      let n_city := is_new_city transaction user_history
      let base : ℤ × List Rule :=
        if n_card && n_country then
          (85, [.ATO_HIGH transaction.card_last4 transaction.pickup_country])
        else if n_card && n_city then
          (65, [.ATO_MODERATE transaction.card_last4 transaction.pickup_city])
        else if n_card && n_device then
          (70, [.ATO_NEW_CARD_DEVICE transaction.card_last4])
        else if n_card then
          (30, [.ATO_NEW_CARD transaction.card_last4 transaction.user_id])
        else (0, [])
      let withDev : ℤ × List Rule :=
        if n_device && n_country && !n_card then
          (max base.1 50, base.2 ++ [.ATO_NEW_DEVICE_COUNTRY transaction.pickup_country])
        else base
      if n_card then
        let recent_new_card_txns := atoRapidCount transaction all_transactions
        if 3 ≤ recent_new_card_txns then
          .ok (min (withDev.1 + 15) 100, withDev.2 ++ [.ATO_RAPID_USE recent_new_card_txns])
        else .ok withDev
      else .ok withDev

/-! ## Fraud-ring detector (`app/pipeline/fraud_ring.py`) -/

/-- The history subset sharing the current `device_id` inside the inclusive
7-day window (a `None` device matches a `None` device, as in Python). -/
def fraudRingDeviceTxns (transaction : Transaction) (all_transactions : List Transaction)
    (txn_time : ℤ) : List Transaction :=
  let window_start := txn_time - 7 * 86400
  all_transactions.filterMap (fun t =>
    if t.device_id = transaction.device_id then
      match t.timestamp with
      | none => none
      | some tt => if window_start ≤ tt ∧ tt ≤ txn_time then some t else none
    else none)

/-- The base clauses on the number of distinct users sharing the device.
The `>= 4` and `>= 3` branches slice `device_id[:12]` for the message,
raising `TypeError` when the current `device_id` is `None`. -/
def fraudRingBase (num_users_sharing : ℕ) (device_id : Option String) :
    Except PyErr (ℤ × List Rule) :=
  if 4 ≤ num_users_sharing then
    match device_id with
    | some d => .ok (90, [.FRAUD_RING_HIGH num_users_sharing (d.take 12)])
    | none => .error .typeError
  else if 3 ≤ num_users_sharing then
    match device_id with
    | some d => .ok (70, [.FRAUD_RING_MODERATE num_users_sharing (d.take 12)])
    | none => .error .typeError
  else if 2 ≤ num_users_sharing then
    .ok (20, [.FRAUD_RING_LOW num_users_sharing])
  else .ok (0, [])

/-- `calculate_fraud_ring_score`.  `device_users` is the Python set of user
ids of the subset — the current transaction's own user is *not* added. -/
def calculate_fraud_ring_score (transaction : Transaction)
    (all_transactions : List Transaction) : Except PyErr (ℤ × List Rule) :=
  match transaction.timestamp with
  | none => .error .badTimestamp
  | some txn_time =>
    let device_txns := fraudRingDeviceTxns transaction all_transactions txn_time
    let num_users_sharing := ((device_txns.map (·.user_id)).dedup).length
    match fraudRingBase num_users_sharing transaction.device_id with
    | .error e => .error e
    | .ok st1 =>
      let st2 : ℤ × List Rule :=
        if 3 ≤ num_users_sharing ∧ device_txns ≠ [] then
          let amounts := device_txns.map (fun t => t.amount.getD (Q.ofInt 0))
          -- `if amounts:` is true whenever device_txns is nonempty
          let avg_amount := Q.div (qsum amounts) (Q.ofInt amounts.length)
          if Q.lt (Q.ofInt 0) avg_amount then
            let similar_count := amounts.countP (fun a =>
              decide (Q.lt (Q.div (Q.abs (Q.sub a avg_amount)) avg_amount) (Q.mk 2 10)))
            let similarity_ratio := Q.div (Q.ofInt similar_count) (Q.ofInt amounts.length)
            if Q.lt (Q.mk 7 10) similarity_ratio then
              (min (st1.1 + 20) 100,
                st1.2 ++ [.FRAUD_RING_SIMILAR_AMOUNTS similarity_ratio avg_amount])
            else st1
          else st1
        else st1
      let times := device_txns.filterMap (·.timestamp)
      if 3 ≤ num_users_sharing ∧ device_txns ≠ [] ∧ 3 ≤ times.length then
        let sorted := List.insertionSort (fun a b : ℤ => a ≤ b) times
        let time_span_hours := Q.div
          (Q.ofInt (sorted.getLast?.getD 0 - sorted.head?.getD 0)) (Q.ofInt 3600)
        if Q.lt time_span_hours (Q.ofInt 24) ∧ 5 ≤ times.length then
          .ok (min (st2.1 + 15) 100,
            st2.2 ++ [.FRAUD_RING_TIME_CLUSTER times.length time_span_hours])
        else .ok st2
      else .ok st2

/-! ## Rule-based aggregation (`app/scoring/rule_based.py`) -/

/-- The seven indicator scores, in the insertion order of the `indicators`
dict built by `process_single_transaction`. -/
structure IndicatorScores where
  velocity_score : ℤ
  geographic_score : ℤ
  amount_score : ℤ
  card_testing_score : ℤ
  collusion_score : ℤ
  ato_score : ℤ
  fraud_ring_score : ℤ
deriving DecidableEq, Repr

/-- `indicators.values()`. -/
def IndicatorScores.values (i : IndicatorScores) : List ℤ :=
  [i.velocity_score, i.geographic_score, i.amount_score, i.card_testing_score,
    i.collusion_score, i.ato_score, i.fraud_ring_score]

/-- Python `max(xs)` for a nonempty list (`0` for the unreachable empty case,
matching `max(...) if indicators else 0`). -/
def listMaxD : List ℤ → ℤ
  | [] => 0
  | y :: ys => ys.foldl max y

/-- The `weighted_score` accumulation loop over the `WEIGHTS` dict, in its
insertion order, starting from `0`. -/
def weightedSum (i : IndicatorScores) : Q :=
  Q.add (Q.add (Q.add (Q.add (Q.add (Q.add (Q.add (Q.ofInt 0)
    (Q.mul (Q.ofInt i.velocity_score) (Q.mk 25 100)))
    (Q.mul (Q.ofInt i.geographic_score) (Q.mk 25 100)))
    (Q.mul (Q.ofInt i.amount_score) (Q.mk 15 100)))
    (Q.mul (Q.ofInt i.card_testing_score) (Q.mk 20 100)))
    (Q.mul (Q.ofInt i.collusion_score) (Q.mk 5 100)))
    (Q.mul (Q.ofInt i.ato_score) (Q.mk 5 100)))
    (Q.mul (Q.ofInt i.fraud_ring_score) (Q.mk 5 100))

/-- The risk-level thresholding shared by `rule_based.py` and `hybrid.py`
(`settings.high_risk_threshold` / `settings.low_risk_threshold` are the
configuration inputs). -/
def riskLevelFor (low_risk_threshold high_risk_threshold s : ℤ) : RiskLevel :=
  if high_risk_threshold ≤ s then .high_risk
  else if low_risk_threshold ≤ s then .medium_risk
  else .low_risk

/-- `calculate_rule_based_score`. -/
def calculate_rule_based_score (low_risk_threshold high_risk_threshold : ℤ)
    (indicators : IndicatorScores) : ℤ × RiskLevel :=
  let weighted_score := weightedSum indicators
  let risk0 := min (pythonRound weighted_score) 100
  let max_indicator := listMaxD indicators.values
  let risk1 :=
    if 90 ≤ max_indicator then max risk0 80
    else if 70 ≤ max_indicator then max risk0 65
    else risk0
  let strong_triggered := indicators.values.countP (fun v => decide (20 ≤ v))
  let risk2 :=
    if 3 ≤ strong_triggered then max risk1 70
    else if 2 ≤ strong_triggered then max risk1 55
    else risk1
  let risk_score := min risk2 100
  (risk_score, riskLevelFor low_risk_threshold high_risk_threshold risk_score)

/-! ## Hybrid scoring (`app/scoring/hybrid.py`)

The supervised model is out of the detection core (sklearn); it enters the
combiner only through `is_model_trained()` and the value `predict_risk`
returns, which are the parameters `model_is_trained` and `ml_prediction`. -/

/-- `calculate_hybrid_score`. -/
def calculate_hybrid_score (model_is_trained : Bool) (ml_prediction : Q)
    (low_risk_threshold high_risk_threshold : ℤ) (indicators : IndicatorScores) :
    ℤ × RiskLevel × Option Q :=
  let rule_score := (calculate_rule_based_score low_risk_threshold high_risk_threshold
    indicators).1
  let ml_score : Option Q := if model_is_trained then some ml_prediction else none
  let final0 : ℤ :=
    match ml_score with
    | some m => pythonRound (Q.add (Q.mul (Q.mk 4 10) (Q.ofInt rule_score))
        (Q.mul (Q.mk 6 10) m))
    | none => rule_score
  let final_score := min (max final0 0) 100
  (final_score, riskLevelFor low_risk_threshold high_risk_threshold final_score, ml_score)

/-! ## Orchestrator (`app/pipeline/processor.py`) -/

/-- The emitted assessment.  `processed_at` (a wall-clock instant) is not
modelled. -/
structure RiskAssessment where
  transaction_id : String
  risk_score : ℤ
  risk_level : RiskLevel
  velocity_score : ℤ
  geographic_score : ℤ
  amount_score : ℤ
  card_testing_score : ℤ
  collusion_score : ℤ
  ato_score : ℤ
  fraud_ring_score : ℤ
  ml_score : Option Q
  triggered_rules : List Rule
deriving DecidableEq, Repr

/-- `process_single_transaction`: run the seven detectors in the fixed
order, aggregate, hybrid-combine, and assemble the assessment.
`transaction["transaction_id"]` raises `KeyError` on a missing key. -/
def process_single_transaction (hav : Q → Q → Q → Q → Q) (sqrtQ : Q → Q)
    (model_is_trained : Bool) (ml_prediction : Q)
    (low_risk_threshold high_risk_threshold : ℤ) (transaction : Transaction)
    (all_transactions : List Transaction) : Except PyErr RiskAssessment := do
  let (velocity_score, velocity_rules) ← calculate_velocity_score transaction all_transactions
  let (geographic_score, geo_rules) ← calculate_geographic_score hav transaction all_transactions
  let (amount_score, amount_rules) ← calculate_amount_score sqrtQ transaction all_transactions
  let (card_testing_score, ct_rules) ← calculate_card_testing_score transaction all_transactions
  let (collusion_score, collusion_rules) ← calculate_collusion_score hav transaction all_transactions
  let (ato_score, ato_rules) ← calculate_ato_score transaction all_transactions
  let (fraud_ring_score, ring_rules) ← calculate_fraud_ring_score transaction all_transactions
  let indicators : IndicatorScores :=
    ⟨velocity_score, geographic_score, amount_score, card_testing_score,
      collusion_score, ato_score, fraud_ring_score⟩
  let (final_score, risk_level, ml_score) := calculate_hybrid_score model_is_trained
    ml_prediction low_risk_threshold high_risk_threshold indicators
  match transaction.transaction_id with
  | none => .error .keyError
  | some tid => .ok {
      transaction_id := tid
      risk_score := final_score
      risk_level := risk_level
      velocity_score := velocity_score
      geographic_score := geographic_score
      amount_score := amount_score
      card_testing_score := card_testing_score
      collusion_score := collusion_score
      ato_score := ato_score
      fraud_ring_score := fraud_ring_score
      ml_score := ml_score
      triggered_rules := velocity_rules ++ geo_rules ++ amount_rules ++ ct_rules ++
        collusion_rules ++ ato_rules ++ ring_rules }

/-! ### Heap model for `process_batch`

`process_batch` manipulates Python list *objects*: the caller passes a
reference to its seed history list, and the function builds
`running_context = list(all_transactions)` — a fresh copy — before appending
batch transactions to it.  To make aliasing observable we model a store of
list objects; references are indices into it. -/

/-- The store of Python list objects alive during a `process_batch` call. -/
structure ListStore where
  lists : List (List Transaction)
deriving DecidableEq, Repr

/-- Dereference a list object. -/
def storeGet (s : ListStore) (r : ℕ) : List Transaction := (s.lists.getD r [])

/-- `list(xs)`: allocate a fresh list object holding a copy of `xs`. -/
def storeAlloc (s : ListStore) (xs : List Transaction) : ℕ × ListStore :=
  (s.lists.length, ⟨s.lists ++ [xs]⟩)

/-- `obj.append(t)`: in-place mutation of the list object `r`. -/
def storeAppend (s : ListStore) (r : ℕ) (t : Transaction) : ListStore :=
  ⟨s.lists.set r (storeGet s r ++ [t])⟩

/-- The `for txn in batch:` loop of `process_batch`: assess against the
running context object, then append the transaction to it.  An exception in
`process_single_transaction` propagates (the loop stops). -/
def processBatchLoop (hav : Q → Q → Q → Q → Q) (sqrtQ : Q → Q)
    (model_is_trained : Bool) (ml_prediction : Q)
    (low_risk_threshold high_risk_threshold : ℤ) :
    List Transaction → ℕ → ListStore → List RiskAssessment →
    (Except PyErr (List RiskAssessment)) × ListStore
  | [], _, s, results => (.ok results.reverse, s)
  | txn :: rest, ctx, s, results =>
    match process_single_transaction hav sqrtQ model_is_trained ml_prediction
        low_risk_threshold high_risk_threshold txn (storeGet s ctx) with
    | .error e => (.error e, s)
    | .ok assessment =>
      processBatchLoop hav sqrtQ model_is_trained ml_prediction low_risk_threshold
        high_risk_threshold rest ctx (storeAppend s ctx txn) (assessment :: results)

/-- `process_batch`: copy the seed history into a fresh running-context
object (`running_context = list(all_transactions)`), then run the loop. -/
def process_batch (hav : Q → Q → Q → Q → Q) (sqrtQ : Q → Q)
    (model_is_trained : Bool) (ml_prediction : Q)
    (low_risk_threshold high_risk_threshold : ℤ) (batch : List Transaction)
    (all_transactions_ref : ℕ) (s : ListStore) :
    (Except PyErr (List RiskAssessment)) × ListStore :=
  let alloc := storeAlloc s (storeGet s all_transactions_ref)
  processBatchLoop hav sqrtQ model_is_trained ml_prediction low_risk_threshold
    high_risk_threshold batch alloc.1 alloc.2 []

/-! ## Spec-side definitions

These follow the wording of the spec claims (not the code); the refinement
theorems below compare them with the embedded source. -/

/-- Claim C4: the scores of the fired velocity clauses — at most one tier
clause on `m1`, plus the independent `m2` and `user_24h` clauses. -/
def velocityFired (m1 m2 u24 : ℕ) : List ℤ :=
  (if 10 ≤ m1 then [100] else if 8 ≤ m1 then [80] else if 6 ≤ m1 then [50]
   else if 3 ≤ m1 then [20] else []) ++
  (if 10 ≤ m2 then [90] else []) ++
  (if 15 ≤ u24 then [60] else [])

/-- Claim C4: `min(100, max of the fired clause scores)` (`0` when none). -/
def velocitySpecScore (m1 m2 u24 : ℕ) : ℤ :=
  min 100 ((velocityFired m1 m2 u24).foldr max 0)

/-- Claim C5: maximum of the rounded weighted sum `W` and each applicable
floor — `80` if the maximum indicator is `≥ 90` else `65` if `≥ 70`, and
`70` if at least three indicators are `≥ 20` else `55` if at least two are —
clamped to `[0, 100]`. -/
def ruleScoreSpec (i : IndicatorScores) : ℤ :=
  let W := pythonRound (weightedSum i)
  let max_indicator := listMaxD i.values
  let floorMax : ℤ :=
    if 90 ≤ max_indicator then 80 else if 70 ≤ max_indicator then 65 else 0
  let strong := i.values.countP (fun v => decide (20 ≤ v))
  let floorCount : ℤ := if 3 ≤ strong then 70 else if 2 ≤ strong then 55 else 0
  min (max (max W (max floorMax floorCount)) 0) 100

/-- The data-model domain of `IndicatorScores` (spec §3: seven reals in
`[0, 100]`). -/
def scoresInRange (i : IndicatorScores) : Prop :=
  0 ≤ i.velocity_score ∧ i.velocity_score ≤ 100 ∧
  0 ≤ i.geographic_score ∧ i.geographic_score ≤ 100 ∧
  0 ≤ i.amount_score ∧ i.amount_score ≤ 100 ∧
  0 ≤ i.card_testing_score ∧ i.card_testing_score ≤ 100 ∧
  0 ≤ i.collusion_score ∧ i.collusion_score ≤ 100 ∧
  0 ≤ i.ato_score ∧ i.ato_score ≤ 100 ∧
  0 ≤ i.fraud_ring_score ∧ i.fraud_ring_score ≤ 100

instance (i : IndicatorScores) : Decidable (scoresInRange i) :=
  inferInstanceAs (Decidable (_ ∧ _))

/-- Claim C8's fallback set as the claim words it: amounts of the *prior*
(timestamp strictly before `txn_time`) transactions with the same currency.
The code's actual fallback applies no timestamp filter; the counterexample
separates the two. -/
def amountPriorCurrencyAmounts (transaction : Transaction)
    (all_transactions : List Transaction) (txn_time : ℤ) : List Q :=
  all_transactions.filterMap (fun t =>
    if t.currency = transaction.currency then
      match t.timestamp with
      | none => none
      | some tt => if tt < txn_time then some (t.amount.getD (Q.ofInt 0)) else none
    else none)

/-! ## Concrete inputs used by counterexamples and witnesses -/

/-- Distance oracle that reports every pair of points 0 km apart. -/
def hav0 : Q → Q → Q → Q → Q := fun _ _ _ _ => Q.ofInt 0

/-- Square-root oracle returning 0 (only ever applied off the proved paths). -/
def sqrt0 : Q → Q := fun _ => Q.ofInt 0

/-- Velocity witness: twelve same-user/card/device transactions in the hour
before noon. -/
def histV : List Transaction := (List.range 12).map (fun i =>
  { transaction_id := some (toString i), timestamp := some (41400 + 60 * (i : ℤ)),
    user_id := some "USR-001", card_last4 := some "1234", device_id := some "DEV-001" })

def txV : Transaction :=
  { transaction_id := some "TXN-TEST", timestamp := some 43200,
    user_id := some "USR-001", card_last4 := some "1234", device_id := some "DEV-001" }

/-- ATO input: prior history on card 1111 / device OLD in Lagos, Nigeria. -/
def histAto : List Transaction := (List.range 5).map (fun i =>
  { transaction_id := some ("TXN-ATO" ++ toString i),
    timestamp := some (86400 * (10 + (i : ℤ))),
    user_id := some "USR-ATO", card_last4 := some "1111", device_id := some "DEV-OLD",
    pickup_country := some "Nigeria", pickup_city := some "Lagos" })

/-- ATO input: new card, new device, new city, but the *same* country. -/
def txAto : Transaction :=
  { transaction_id := some "TXN-ATO-NEW", timestamp := some (86400 * 18),
    user_id := some "USR-ATO", card_last4 := some "9999", device_id := some "DEV-NEW",
    pickup_country := some "Nigeria", pickup_city := some "Abuja" }

/-- Fraud-ring input: two history users share device `d`. -/
def histRing : List Transaction :=
  [{ transaction_id := some "h1", timestamp := some 999900,
     user_id := some "a", device_id := some "d" },
   { transaction_id := some "h2", timestamp := some 999800,
     user_id := some "b", device_id := some "d" }]

/-- Fraud-ring input: the current transaction is by a third user `c`. -/
def txRing : Transaction :=
  { transaction_id := some "t1", timestamp := some 1000000,
    user_id := some "c", device_id := some "d" }

/-- Geographic failing input: a same-user prior one hour earlier whose
pickup coordinates are null. -/
def histGeo : List Transaction :=
  [{ transaction_id := some "h1", timestamp := some 39600,
     user_id := some "u1", pickup_lat := none, pickup_lng := none,
     pickup_country := some "NG", pickup_city := some "Lagos" }]

def txGeo : Transaction :=
  { transaction_id := some "t1", timestamp := some 43200,
    user_id := some "u1", pickup_lat := some (Q.ofInt 6),
    pickup_lng := some (Q.ofInt 3), pickup_country := some "NG",
    pickup_city := some "Lagos" }

/-- Amount input: ten same-currency history entries, every one timestamped
*after* the current transaction, all with amount 100. -/
def histAmt : List Transaction := (List.range 10).map (fun i =>
  { transaction_id := some ("h" ++ toString i),
    timestamp := some (1000000 + 3600 * ((i : ℤ) + 1)),
    user_id := some "other", currency := some "NGN", amount := some (Q.ofInt 100) })

def txAmt : Transaction :=
  { transaction_id := some "t1", timestamp := some 1000000,
    user_id := some "u", currency := some "NGN", amount := some (Q.ofInt 1000) }

/-- Collusion counterexample: equatorial pickup (`pickup_lat = 0`), all other
coordinates present and nonzero. -/
def txColl : Transaction :=
  { transaction_id := some "t1", timestamp := some 1000000,
    user_id := some "u", driver_id := some "d",
    pickup_lat := some (Q.ofInt 0), pickup_lng := some (Q.ofInt 3),
    dropoff_lat := some (Q.ofInt 1), dropoff_lng := some (Q.ofInt 4) }

/-- Three recent rides by the same user–driver pair, with nonzero pickups. -/
def histColl : List Transaction := (List.range 3).map (fun i =>
  { transaction_id := some ("h" ++ toString i), timestamp := some (999000 + 60 * (i : ℤ)),
    user_id := some "u", driver_id := some "d",
    pickup_lat := some (Q.ofInt 5), pickup_lng := some (Q.ofInt 3),
    dropoff_lat := some (Q.ofInt 6), dropoff_lng := some (Q.ofInt 4) })

/-- Distance oracle for the collusion counterexample: 0 km from the equator
(latitude 0), 10 km from anywhere else. -/
def havColl : Q → Q → Q → Q → Q := fun a _ _ _ =>
  if a.num = 0 then Q.ofInt 0 else Q.ofInt 10

/-- Collusion witness: same shape with a nonzero pickup latitude. -/
def txCollW : Transaction :=
  { transaction_id := some "t1", timestamp := some 1000000,
    user_id := some "u", driver_id := some "d",
    pickup_lat := some (Q.ofInt 1), pickup_lng := some (Q.ofInt 3),
    dropoff_lat := some (Q.ofInt 1), dropoff_lng := some (Q.ofInt 4) }

/-- A fully populated transaction processed against histories that do not
trip any detector. -/
def txOne : Transaction :=
  { transaction_id := some "T1", timestamp := some 10000000, user_id := some "u",
    driver_id := some "d", card_last4 := some "1111", device_id := some "dev",
    pickup_city := some "Lagos", pickup_country := some "NG",
    pickup_lat := some (Q.ofInt 6), pickup_lng := some (Q.ofInt 3),
    dropoff_lat := some (Q.ofInt 7), dropoff_lng := some (Q.ofInt 4),
    amount := some (Q.ofInt 100), currency := some "NGN" }

/-- A seed-history transaction by a different user/card/device/driver. -/
def txSeed : Transaction :=
  { transaction_id := some "S1", timestamp := some 9000000, user_id := some "v",
    driver_id := some "e", card_last4 := some "2222", device_id := some "dev2",
    pickup_city := some "Nairobi", pickup_country := some "KE",
    pickup_lat := some (Q.ofInt 1), pickup_lng := some (Q.ofInt 36),
    dropoff_lat := some (Q.ofInt 2), dropoff_lng := some (Q.ofInt 37),
    amount := some (Q.ofInt 200), currency := some "KES" }

/-- The assessment `process_single_transaction` emits for `txOne` against
the empty history. -/
def assessOne : RiskAssessment :=
  { transaction_id := "T1", risk_score := 0, risk_level := .low_risk,
    velocity_score := 0, geographic_score := 0, amount_score := 0,
    card_testing_score := 0, collusion_score := 0, ato_score := 0,
    fraud_ring_score := 0, ml_score := none, triggered_rules := [] }

/-- Indicator scores used by the aggregation witnesses. -/
def indW : IndicatorScores := ⟨95, 80, 30, 0, 20, 0, 0⟩

/-- A store holding one caller-owned seed-history list object. -/
def storeW : ListStore := ⟨[[txSeed]]⟩

/-! ## Claim C1 — account-takeover base-clause order -/

/-- Claim C1 is false on the code: for `txAto` (new card, new device, new
city, same country, nonempty 30-day history) the source's base clause chain
tests `new card + new city` *before* `new card + new device`, so it yields
65 with `ATO_MODERATE`, not 70 with `ATO_NEW_CARD_DEVICE`. -/
theorem ato_new_card_device_counterexample :
    (atoUserHistory txAto histAto 1555200 ≠ [] ∧
      txAto.timestamp = some 1555200 ∧
      is_new_card txAto (atoUserHistory txAto histAto 1555200) = true ∧
      is_new_device txAto (atoUserHistory txAto histAto 1555200) = true ∧
      is_new_city txAto (atoUserHistory txAto histAto 1555200) = true ∧
      is_new_country txAto (atoUserHistory txAto histAto 1555200) = false) ∧
    calculate_ato_score txAto histAto =
      .ok (65, [.ATO_MODERATE (some "9999") (some "Abuja")]) := by
  decide

/-- Claim C1 as amended: with a new card, new device and new city but a
known country, the base clause that fires is `(new card + new city)` — the
source applies it before `(new card + new device)` — giving score 65 and
rule `ATO_MODERATE` (rising to 80 with the `ATO_RAPID_USE` boost when the
user already has three transactions on the card). -/
theorem ato_moderate_before_device (tx : Transaction) (hist : List Transaction)
    (t0 : ℤ) (h : tx.timestamp = some t0)
    (hne : atoUserHistory tx hist t0 ≠ [])
    (hcard : is_new_card tx (atoUserHistory tx hist t0) = true)
    (hdev : is_new_device tx (atoUserHistory tx hist t0) = true)
    (hcity : is_new_city tx (atoUserHistory tx hist t0) = true)
    (hcountry : is_new_country tx (atoUserHistory tx hist t0) = false) :
    calculate_ato_score tx hist =
      .ok ((if 3 ≤ atoRapidCount tx hist then 80 else 65),
        .ATO_MODERATE tx.card_last4 tx.pickup_city ::
          (if 3 ≤ atoRapidCount tx hist then [.ATO_RAPID_USE (atoRapidCount tx hist)]
           else [])) := by
  have hisEmpty : (atoUserHistory tx hist t0).isEmpty = false := by
    simpa [List.isEmpty_iff] using hne
  simp only [calculate_ato_score, h, hisEmpty, hcard, hcountry, hcity, hdev,
    Bool.false_and, Bool.and_false, Bool.and_self, Bool.true_and, Bool.and_true,
    Bool.not_true, if_false, if_true, Bool.false_eq_true, ite_false, ite_true]
  split
  · norm_num
  · norm_num

/-- Witness for the amended C1 at the concrete counterexample input. -/
theorem ato_moderate_before_device_witness :
    calculate_ato_score txAto histAto =
      .ok ((if 3 ≤ atoRapidCount txAto histAto then 80 else 65),
        .ATO_MODERATE txAto.card_last4 txAto.pickup_city ::
          (if 3 ≤ atoRapidCount txAto histAto then
            [.ATO_RAPID_USE (atoRapidCount txAto histAto)]
           else [])) :=
  ato_moderate_before_device txAto histAto 1555200 (by decide) (by decide)
    (by decide) (by decide) (by decide) (by decide)

/-! ## Claim C2 — fraud-ring user set -/

/-- Claim C2 is false on the code: `device_users` collects only the users of
the history subset — the current transaction's user is never added.  With a
subset holding exactly two distinct users, neither of them the current user
`c`, the base score is 20 (`FRAUD_RING_LOW`), not the claimed 70. -/
theorem fraud_ring_user_set_counterexample :
    (txRing.timestamp = some 1000000 ∧
      ((fraudRingDeviceTxns txRing histRing 1000000).map (·.user_id)).dedup.length = 2 ∧
      (some "c") ∉ (fraudRingDeviceTxns txRing histRing 1000000).map (·.user_id) ∧
      txRing.user_id = some "c") ∧
    calculate_fraud_ring_score txRing histRing = .ok (20, [.FRAUD_RING_LOW 2]) := by
  decide

/-- Claim C2 as amended: `U` is the set of distinct users of the same-device
subset only (the current user counts only if it appears in the subset).  The
base clause returns 90 when `|U| ≥ 4`, 70 when `|U| = 3`, 20 when `|U| = 2`
and 0 otherwise; in particular, a subset with exactly two distinct users,
neither of them the current user, scores 20. -/
theorem fraud_ring_subset_users (tx : Transaction) (hist : List Transaction)
    (t0 : ℤ) (h : tx.timestamp = some t0) :
    (∀ d, tx.device_id = some d →
      (fraudRingBase (((fraudRingDeviceTxns tx hist t0).map (·.user_id)).dedup.length
          ) (some d)).map Prod.fst =
        .ok (if 4 ≤ ((fraudRingDeviceTxns tx hist t0).map (·.user_id)).dedup.length then 90
          else if ((fraudRingDeviceTxns tx hist t0).map (·.user_id)).dedup.length = 3 then 70
          else if ((fraudRingDeviceTxns tx hist t0).map (·.user_id)).dedup.length = 2 then 20
          else 0)) ∧
    (((fraudRingDeviceTxns tx hist t0).map (·.user_id)).dedup.length = 2 →
      tx.user_id ∉ (fraudRingDeviceTxns tx hist t0).map (·.user_id) →
      calculate_fraud_ring_score tx hist = .ok (20, [.FRAUD_RING_LOW 2])) := by
  constructor
  · intro d _
    set U := ((fraudRingDeviceTxns tx hist t0).map (·.user_id)).dedup.length with hU
    by_cases h4 : 4 ≤ U
    · simp [fraudRingBase, Except.map, h4]
    · by_cases h3 : U = 3
      · have h3' : 3 ≤ U := by omega
        simp [fraudRingBase, Except.map, h4, h3, h3']
      · by_cases h2 : U = 2
        · have h3' : ¬ 3 ≤ U := by omega
          have h2' : 2 ≤ U := by omega
          simp [fraudRingBase, Except.map, h4, h3, h2, h3', h2']
        · have h3' : ¬ 3 ≤ U := by omega
          have h2' : ¬ 2 ≤ U := by omega
          simp [fraudRingBase, Except.map, h4, h3, h2, h3', h2']
  · intro hU _
    have hne : (fraudRingDeviceTxns tx hist t0) ≠ [] := by
      intro hnil
      rw [hnil] at hU
      simp at hU
    simp only [calculate_fraud_ring_score, h, hU]
    have hbase : fraudRingBase 2 tx.device_id = .ok (20, [.FRAUD_RING_LOW 2]) := by
      unfold fraudRingBase
      norm_num
    rw [hbase]
    norm_num

/-- Witness for the amended C2 at the concrete two-user input. -/
theorem fraud_ring_subset_users_witness :
    calculate_fraud_ring_score txRing histRing = .ok (20, [.FRAUD_RING_LOW 2]) :=
  (fraud_ring_subset_users txRing histRing 1000000 (by decide)).2 (by decide) (by decide)

/-! ## Claim C3 — detectors never raise -/

/-- Claim C3 fails on the code as a code bug: with a parseable current
timestamp and a same-user prior inside the five most recent whose pickup
coordinates are null, `calculate_geographic_score` evaluates
`haversine_km(None, None, …)` and raises `TypeError` (for any distance
oracle), instead of skipping the entry and returning `(0, [])`. -/
theorem geographic_raises_on_null_coords (hav : Q → Q → Q → Q → Q) :
    calculate_geographic_score hav txGeo histGeo = .error .typeError := rfl

/-! ## Claim C8 — amount-detector fallback set -/

/-- Claim C8 is false on the code: the fallback list comprehension filters
on currency only, with no timestamp restriction.  Here every same-currency
history entry is timestamped *after* `t0` — the claim's fallback set (prior
transactions only) is empty, so the claim demands score 0 — yet the code
computes statistics over all ten future entries and returns 80. -/
theorem amount_fallback_counterexample :
    (txAmt.timestamp = some 1000000 ∧
      (amountUserAmounts txAmt histAmt 1000000).length = 0 ∧
      (amountPriorCurrencyAmounts txAmt histAmt 1000000).length = 0) ∧
    (calculate_amount_score sqrt0 txAmt histAmt).map Prod.fst = .ok 80 := by
  decide

/-- Claim C8 as amended: on the fallback path (fewer than five personal
priors) the statistics set is the amounts of **all** history entries with
the same currency — with no user filter and no timestamp filter — and the
detector returns 0 exactly when that unrestricted set has fewer than ten
elements. -/
theorem amount_fallback_set (sqrtQ : Q → Q) (tx : Transaction)
    (hist : List Transaction) (t0 : ℤ) (h : tx.timestamp = some t0)
    (h5 : (amountUserAmounts tx hist t0).length < 5) :
    ((hist.filter (fun t => decide (t.currency = tx.currency))).length < 10 →
      calculate_amount_score sqrtQ tx hist = .ok (0, [])) ∧
    (10 ≤ (hist.filter (fun t => decide (t.currency = tx.currency))).length →
      calculate_amount_score sqrtQ tx hist = .ok (amountStatScore sqrtQ
        (tx.amount.getD (Q.ofInt 0))
        ((hist.filter (fun t => decide (t.currency = tx.currency))).map
          (fun t => t.amount.getD (Q.ofInt 0))) true)) := by
  constructor
  · intro hlt
    simp only [calculate_amount_score, h, if_pos h5, List.length_map]
    rw [if_pos hlt]
  · intro hge
    simp only [calculate_amount_score, h, if_pos h5, List.length_map]
    rw [if_neg (by omega)]

/-- Witness for the amended C8 at the concrete input: ten future NGN
entries form the fallback set, so the statistics branch is taken. -/
theorem amount_fallback_set_witness :
    calculate_amount_score sqrt0 txAmt histAmt = .ok (amountStatScore sqrt0
      (txAmt.amount.getD (Q.ofInt 0))
      ((histAmt.filter (fun t => decide (t.currency = txAmt.currency))).map
        (fun t => t.amount.getD (Q.ofInt 0))) true) :=
  (amount_fallback_set sqrt0 txAmt histAmt 1000000 (by decide) (by decide)).2 (by decide)

/-! ## Claim C9 — collusion current-circular boost -/

/-- Claim C9 is false on the code: the current-circular check is guarded by
`if pickup_lat and dropoff_lat:` — Python float truthiness — so a pickup on
the equator (`pickup_lat = 0`) skips the check entirely.  Here the current
route distance is below 0.5 km and the pair count is 3, yet the detector
returns `(0, [])` with no `COLLUSION_CIRCULAR_CURRENT` rule and no +15. -/
theorem collusion_equator_counterexample :
    (txColl.timestamp = some 1000000 ∧
      txColl.pickup_lat = some (Q.ofInt 0) ∧
      Q.lt (havColl (Q.ofInt 0) (Q.ofInt 3) (Q.ofInt 1) (Q.ofInt 4)) (Q.mk 5 10) ∧
      (collusionPairTxns txColl histColl 1000000).length = 3) ∧
    calculate_collusion_score havColl txColl histColl = .ok (0, []) := by
  decide

/-- Claim C9 as amended: the +15 boost and `COLLUSION_CIRCULAR_CURRENT`
rule fire for a current transaction whose route distance is below 0.5 km
and whose pair count is at least 3, **provided** both latitudes are present
and nonzero (Python truthiness) and both longitudes are present. -/
theorem collusion_circular_current (hav : Q → Q → Q → Q → Q) (tx : Transaction)
    (hist : List Transaction) (t0 : ℤ) (plat plng dlat dlng : Q)
    (h : tx.timestamp = some t0)
    (hplat : tx.pickup_lat = some plat) (hplatn : plat.num ≠ 0)
    (hdlat : tx.dropoff_lat = some dlat) (hdlatn : dlat.num ≠ 0)
    (hplng : tx.pickup_lng = some plng) (hdlng : tx.dropoff_lng = some dlng)
    (hdist : Q.lt (hav plat plng dlat dlng) (Q.mk 5 10))
    (hpair : 3 ≤ (collusionPairTxns tx hist t0).length) :
    calculate_collusion_score hav tx hist = .ok
      (min ((collusionStage hav tx hist t0).1 + 15) 100,
        (collusionStage hav tx hist t0).2 ++
          [.COLLUSION_CIRCULAR_CURRENT (hav plat plng dlat dlng)]) := by
  simp only [calculate_collusion_score, h, hplat, hdlat, hplng, hdlng, truthy,
    bne_iff_ne, ne_eq, hplatn, hdlatn, not_false_eq_true, Bool.and_self, if_true]
  rw [if_pos (show Q.lt (hav plat plng dlat dlng) (Q.mk 5 10) ∧
    3 ≤ (collusionPairTxns tx hist t0).length from ⟨hdist, hpair⟩)]
  rw [if_pos (show (plat.num != 0 && dlat.num != 0) = true by simp [hplatn, hdlatn])]

/-- Witness for the amended C9: nonzero latitudes, distance oracle 0,
three pair rides — the boost fires. -/
theorem collusion_circular_current_witness :
    calculate_collusion_score hav0 txCollW histColl = .ok
      (min ((collusionStage hav0 txCollW histColl 1000000).1 + 15) 100,
        (collusionStage hav0 txCollW histColl 1000000).2 ++
          [.COLLUSION_CIRCULAR_CURRENT (hav0 (Q.ofInt 1) (Q.ofInt 3) (Q.ofInt 1)
            (Q.ofInt 4))]) :=
  collusion_circular_current hav0 txCollW histColl 1000000 (Q.ofInt 1) (Q.ofInt 3)
    (Q.ofInt 1) (Q.ofInt 4) (by decide) (by decide) (by decide) (by decide)
    (by decide) (by decide) (by decide) (by decide) (by decide)

/-! ## Claim C4 — velocity detector score -/

/-- Claim C4: for a parseable current timestamp the velocity score is
`min(100, max of the fired clause scores)` — at most one `m1` tier clause
(100/80/50/20 at thresholds 10/8/6/3), plus 90 when `m2 ≥ 10` and 60 when
`user_24h ≥ 15`, all counts taken by `count_in_window` over the inclusive
windows ending at `t0` — and `(0, [])` when no clause fires. -/
theorem velocity_matches_spec (tx : Transaction) (hist : List Transaction)
    (t0 : ℤ) (u1 u24 c1 c2 d1 : ℕ)
    (h : tx.timestamp = some t0)
    (hu1 : u1 = count_in_window hist (·.user_id) tx.user_id t0 1)
    (hu24 : u24 = count_in_window hist (·.user_id) tx.user_id t0 24)
    (hc1 : c1 = count_in_window hist (·.card_last4) tx.card_last4 t0 1)
    (hc2 : c2 = count_in_window hist (·.card_last4) tx.card_last4 t0 2)
    (hd1 : d1 = count_in_window hist (·.device_id) tx.device_id t0 1) :
    (calculate_velocity_score tx hist).map Prod.fst =
      .ok (velocitySpecScore (max u1 (max c1 d1)) (max c2 u1) u24) ∧
    (max u1 (max c1 d1) < 3 → max c2 u1 < 10 → u24 < 15 →
      calculate_velocity_score tx hist = .ok (0, [])) := by
  subst hu1 hu24 hc1 hc2 hd1
  constructor
  · simp only [calculate_velocity_score, h, velocitySpecScore, velocityFired]
    generalize count_in_window hist (fun x => x.user_id) tx.user_id t0 1 = a
    generalize count_in_window hist (fun x => x.card_last4) tx.card_last4 t0 1 = b
    generalize count_in_window hist (fun x => x.device_id) tx.device_id t0 1 = c
    generalize count_in_window hist (fun x => x.card_last4) tx.card_last4 t0 2 = d
    generalize count_in_window hist (fun x => x.user_id) tx.user_id t0 24 = e
    split_ifs <;> (try simp [Except.map]) <;> (try contradiction)
  · intro h1 h2 h3
    simp only [calculate_velocity_score, h]
    generalize count_in_window hist (fun x => x.user_id) tx.user_id t0 1 = a at h1 h2 ⊢
    generalize count_in_window hist (fun x => x.card_last4) tx.card_last4 t0 1 = b at h1 ⊢
    generalize count_in_window hist (fun x => x.device_id) tx.device_id t0 1 = c at h1 ⊢
    generalize count_in_window hist (fun x => x.card_last4) tx.card_last4 t0 2 = d at h2 ⊢
    generalize count_in_window hist (fun x => x.user_id) tx.user_id t0 24 = e at h3 ⊢
    have e1 : ¬ 10 ≤ a ⊔ (b ⊔ c) := by omega
    have e2 : ¬ 8 ≤ a ⊔ (b ⊔ c) := by omega
    have e3 : ¬ 6 ≤ a ⊔ (b ⊔ c) := by omega
    have e4 : ¬ 3 ≤ a ⊔ (b ⊔ c) := by omega
    have e5 : ¬ 10 ≤ d ⊔ a := by omega
    have e6 : ¬ 15 ≤ e := by omega
    simp [e1, e2, e3, e4, e5, e6]

/-- Witness for C4 at the empty history: no clause fires and the detector
returns `(0, [])`. -/
theorem velocity_matches_spec_witness :
    calculate_velocity_score txV [] = .ok (0, []) :=
  (velocity_matches_spec txV [] 43200 0 0 0 0 0 (by decide) (by decide) (by decide)
    (by decide) (by decide) (by decide)).2 (by decide) (by decide) (by decide)

/-! ## Shared arithmetic lemmas -/

/-- `pythonRound` of a positive-denominator fraction lying in `[lo, hi]`
stays in `[lo, hi]`. -/
theorem pythonRound_bounds (q : Q) (lo hi : ℤ) (hd : 0 < q.den)
    (hlo : lo * q.den ≤ q.num) (hhi : q.num ≤ hi * q.den) :
    lo ≤ pythonRound q ∧ pythonRound q ≤ hi := by
  unfold pythonRound
  have hmod := Int.ediv_add_emod q.num q.den
  have hm0 : 0 ≤ q.num % q.den := Int.emod_nonneg _ (by omega)
  have hm1 : q.num % q.den < q.den := Int.emod_lt_of_pos _ hd
  set f := q.num / q.den with hf
  have hrN : q.num - f * q.den = q.num % q.den := by linarith
  have hfl : lo ≤ f := by
    by_contra hcon
    push_neg at hcon
    have h1 : f + 1 ≤ lo := hcon
    have h2 : (f + 1) * q.den ≤ lo * q.den :=
      mul_le_mul_of_nonneg_right h1 hd.le
    have h3 : q.num < (f + 1) * q.den := by
      have : (f + 1) * q.den = f * q.den + q.den := by ring
      linarith
    linarith
  have hfu : f ≤ hi := by
    by_contra hcon
    push_neg at hcon
    have h1 : hi + 1 ≤ f := hcon
    have h2 : (hi + 1) * q.den ≤ f * q.den :=
      mul_le_mul_of_nonneg_right h1 hd.le
    have h3 : f * q.den ≤ q.num := by linarith
    have : (hi + 1) * q.den = hi * q.den + q.den := by ring
    linarith
  have hup : q.den ≤ 2 * (q.num - f * q.den) → f + 1 ≤ hi := by
    intro hbig
    by_contra hcon
    push_neg at hcon
    have hfe : f = hi := by omega
    have h3 : q.num ≤ f * q.den := by rw [hfe]; exact hhi
    linarith
  dsimp only
  split_ifs with c1 c2 c3
  · exact ⟨hfl, hfu⟩
  · exact ⟨by linarith, hup (by linarith)⟩
  · exact ⟨hfl, hfu⟩
  · exact ⟨by linarith, hup (by linarith)⟩

/-- The weighted sum has the fixed denominator `100^7`. -/
theorem weightedSum_den (i : IndicatorScores) :
    (weightedSum i).den = 100000000000000 := rfl

/-- With indicator scores in `[0, 100]`, the weighted-sum numerator lies in
`[0, 100 · 100^7]`. -/
theorem weightedSum_num_bounds (i : IndicatorScores) (h : scoresInRange i) :
    0 ≤ (weightedSum i).num ∧ (weightedSum i).num ≤ 100 * 100000000000000 := by
  obtain ⟨h1, h2, h3, h4, h5, h6, h7, h8, h9, h10, h11, h12, h13, h14⟩ := h
  simp only [weightedSum, Q.add, Q.mul, Q.ofInt]
  constructor <;> nlinarith

/-- The rule-based score is clamped to `[0, 100]` on valid indicators. -/
theorem rule_based_score_bounds (lt ht : ℤ) (i : IndicatorScores)
    (h : scoresInRange i) :
    0 ≤ (calculate_rule_based_score lt ht i).1 ∧
      (calculate_rule_based_score lt ht i).1 ≤ 100 := by
  have hn := weightedSum_num_bounds i h
  have hW := pythonRound_bounds (weightedSum i) 0 100
    (by rw [weightedSum_den]; norm_num)
    (by rw [weightedSum_den]; omega)
    (by rw [weightedSum_den]; omega)
  unfold calculate_rule_based_score
  dsimp only
  split_ifs <;> simp <;> omega

/-! ## Claim C5 — rule-based aggregation -/

/-- Claim C5: over the data-model domain (all seven indicator scores in
`[0, 100]`), the aggregator returns the maximum of the rounded weighted sum
`W` and each applicable floor (80 when `max ≥ 90` else 65 when `max ≥ 70`;
70 when at least three indicators are `≥ 20` else 55 when at least two
are), clamped to `[0, 100]`. -/
theorem rule_based_matches_spec (lt ht : ℤ) (i : IndicatorScores)
    (h : scoresInRange i) :
    (calculate_rule_based_score lt ht i).1 = ruleScoreSpec i := by
  have hn := weightedSum_num_bounds i h
  have hW := pythonRound_bounds (weightedSum i) 0 100
    (by rw [weightedSum_den]; norm_num)
    (by rw [weightedSum_den]; omega)
    (by rw [weightedSum_den]; omega)
  unfold calculate_rule_based_score ruleScoreSpec
  dsimp only
  split_ifs <;> simp <;> omega

/-- Witness for C5 at a concrete score assignment. -/
theorem rule_based_matches_spec_witness :
    (calculate_rule_based_score 30 60 indW).1 = ruleScoreSpec indW :=
  rule_based_matches_spec 30 60 indW (by decide)

/-! ## Claim C6 — hybrid combiner -/

/-- The risk level derived by `riskLevelFor` satisfies the claimed
threshold characterisation. -/
theorem riskLevelFor_iff (lt ht s : ℤ) :
    (riskLevelFor lt ht s = .high_risk ↔ ht ≤ s) ∧
    (riskLevelFor lt ht s = .medium_risk ↔ lt ≤ s ∧ s < ht) ∧
    (riskLevelFor lt ht s = .low_risk ↔ s < ht ∧ s < lt) := by
  unfold riskLevelFor
  split_ifs <;> simp <;> omega

/-- Claim C6: with no active model the combiner emits the rule score
unchanged with no ml score; with an active model it emits
`round(0.4·rule + 0.6·ml)` clamped to `[0, 100]` with the ml score
reported alongside; in both cases the emitted level is `high_risk` iff the
emitted score reaches `high_risk_threshold`, `medium_risk` iff it lies in
`[low_risk_threshold, high_risk_threshold)`, and `low_risk` otherwise. -/
theorem hybrid_matches_spec (mt : Bool) (mp : Q) (lt ht : ℤ)
    (i : IndicatorScores) (h : scoresInRange i) :
    (mt = false → calculate_hybrid_score false mp lt ht i =
      ((calculate_rule_based_score lt ht i).1,
        riskLevelFor lt ht (calculate_rule_based_score lt ht i).1, none)) ∧
    (mt = true → calculate_hybrid_score true mp lt ht i =
      (min (max (pythonRound (Q.add
          (Q.mul (Q.mk 4 10) (Q.ofInt (calculate_rule_based_score lt ht i).1))
          (Q.mul (Q.mk 6 10) mp))) 0) 100,
        riskLevelFor lt ht (min (max (pythonRound (Q.add
          (Q.mul (Q.mk 4 10) (Q.ofInt (calculate_rule_based_score lt ht i).1))
          (Q.mul (Q.mk 6 10) mp))) 0) 100),
        some mp)) ∧
    ((calculate_hybrid_score mt mp lt ht i).2.1 = .high_risk ↔
      ht ≤ (calculate_hybrid_score mt mp lt ht i).1) ∧
    ((calculate_hybrid_score mt mp lt ht i).2.1 = .medium_risk ↔
      lt ≤ (calculate_hybrid_score mt mp lt ht i).1 ∧
        (calculate_hybrid_score mt mp lt ht i).1 < ht) ∧
    ((calculate_hybrid_score mt mp lt ht i).2.1 = .low_risk ↔
      (calculate_hybrid_score mt mp lt ht i).1 < ht ∧
        (calculate_hybrid_score mt mp lt ht i).1 < lt) := by
  have hb := rule_based_score_bounds lt ht i h
  refine ⟨?_, ?_, ?_, ?_, ?_⟩
  · intro _
    have hcl : min (max (calculate_rule_based_score lt ht i).1 0) 100 =
        (calculate_rule_based_score lt ht i).1 := by omega
    unfold calculate_hybrid_score
    simp only [Bool.false_eq_true, if_false]
    rw [hcl]
  · intro _
    rfl
  · exact (riskLevelFor_iff lt ht _).1
  · exact (riskLevelFor_iff lt ht _).2.1
  · exact (riskLevelFor_iff lt ht _).2.2

/-- Witness for C6: no active model, concrete indicator scores — the rule
score passes through unchanged. -/
theorem hybrid_matches_spec_witness :
    calculate_hybrid_score false (Q.mk 777 10) 30 60 indW =
      ((calculate_rule_based_score 30 60 indW).1,
        riskLevelFor 30 60 (calculate_rule_based_score 30 60 indW).1, none) :=
  (hybrid_matches_spec false (Q.mk 777 10) 30 60 indW (by decide)).1 rfl

/-! ## Claim C7 — emitted scores stay in `[0, 100]` -/

theorem le_foldl_max (a : ℤ) (xs : List ℤ) : a ≤ xs.foldl max a := by
  induction xs generalizing a with
  | nil => exact le_refl a
  | cons x xs ih =>
    calc a ≤ max a x := le_max_left a x
    _ ≤ xs.foldl max (max a x) := ih (max a x)

theorem ite_zero_foldl_nonneg (c : Prop) [Decidable c] (l : List ℤ) :
    0 ≤ (if c then 0 else l.foldl max 0) := by
  split
  · exact le_refl 0
  · exact le_foldl_max 0 l

theorem calculate_velocity_score_bounds (tx : Transaction)
    (hist : List Transaction) (r : ℤ × List Rule)
    (h : calculate_velocity_score tx hist = .ok r) : 0 ≤ r.1 ∧ r.1 ≤ 100 := by
  unfold calculate_velocity_score at h
  split at h
  · exact absurd h (by simp)
  · dsimp only at h
    injection h with h'
    subst h'
    dsimp only
    constructor
    · exact le_min (ite_zero_foldl_nonneg _ _) (by norm_num)
    · exact min_le_right _ _

theorem geoLoop_bounds (hav : Q → Q → Q → Q → Q) (tx : Transaction) (t0 : ℤ)
    (l : List (Transaction × ℤ)) (ms : ℤ) (tr : List Rule) (r : ℤ × List Rule)
    (h0 : 0 ≤ ms) (h1 : ms ≤ 100)
    (h : geoLoop hav tx t0 l ms tr = .ok r) : 0 ≤ r.1 ∧ r.1 ≤ 100 := by
  induction l generalizing ms tr with
  | nil =>
    unfold geoLoop at h
    injection h with h'
    subst h'
    constructor
    · exact le_min h0 (by norm_num)
    · exact min_le_right _ _
  | cons p rest ih =>
    obtain ⟨prev, prev_time⟩ := p
    unfold geoLoop at h
    split at h
    · dsimp only at h
      split_ifs at h
      · exact ih _ _ h0 h1 h
      · exact ih _ _ (by omega) (by omega) h
      · exact ih _ _ (by omega) (by omega) h
      · exact ih _ _ (by omega) (by omega) h
      · exact ih _ _ h0 h1 h
    · exact absurd h (by simp)

theorem calculate_geographic_score_bounds (hav : Q → Q → Q → Q → Q)
    (tx : Transaction) (hist : List Transaction) (r : ℤ × List Rule)
    (h : calculate_geographic_score hav tx hist = .ok r) : 0 ≤ r.1 ∧ r.1 ≤ 100 := by
  unfold calculate_geographic_score at h
  split at h
  · exact absurd h (by simp)
  · dsimp only at h
    split_ifs at h
    · injection h with h'
      subst h'
      norm_num
    · exact geoLoop_bounds _ _ _ _ _ _ _ (by norm_num) (by norm_num) h

theorem amountStatScore_bounds (sqrtQ : Q → Q) (amt : Q) (xs : List Q)
    (up : Bool) : 0 ≤ (amountStatScore sqrtQ amt xs up).1 ∧
      (amountStatScore sqrtQ amt xs up).1 ≤ 100 := by
  unfold amountStatScore
  dsimp only
  split_ifs <;> norm_num

theorem calculate_amount_score_bounds (sqrtQ : Q → Q) (tx : Transaction)
    (hist : List Transaction) (r : ℤ × List Rule)
    (h : calculate_amount_score sqrtQ tx hist = .ok r) : 0 ≤ r.1 ∧ r.1 ≤ 100 := by
  unfold calculate_amount_score at h
  split at h
  · exact absurd h (by simp)
  · dsimp only at h
    split_ifs at h <;> injection h with h' <;> subst h'
    · norm_num
    · exact amountStatScore_bounds _ _ _ _
    · exact amountStatScore_bounds _ _ _ _

theorem calculate_card_testing_score_bounds (tx : Transaction)
    (hist : List Transaction) (r : ℤ × List Rule)
    (h : calculate_card_testing_score tx hist = .ok r) : 0 ≤ r.1 ∧ r.1 ≤ 100 := by
  unfold calculate_card_testing_score at h
  split at h
  · exact absurd h (by simp)
  · dsimp only at h
    split_ifs at h <;> injection h with h' <;> subst h' <;> norm_num

theorem collusionStage_bounds (hav : Q → Q → Q → Q → Q) (tx : Transaction)
    (hist : List Transaction) (t0 : ℤ) :
    0 ≤ (collusionStage hav tx hist t0).1 ∧ (collusionStage hav tx hist t0).1 ≤ 100 := by
  unfold collusionStage
  dsimp only
  split_ifs <;> simp <;> omega

theorem calculate_collusion_score_bounds (hav : Q → Q → Q → Q → Q)
    (tx : Transaction) (hist : List Transaction) (r : ℤ × List Rule)
    (h : calculate_collusion_score hav tx hist = .ok r) : 0 ≤ r.1 ∧ r.1 ≤ 100 := by
  unfold calculate_collusion_score at h
  split at h
  · exact absurd h (by simp)
  · rename_i t0 heq
    have hs := collusionStage_bounds hav tx hist t0
    dsimp only at h
    split_ifs at h
    · split at h
      · split_ifs at h
        · injection h with h'
          subst h'
          refine ⟨le_min (by omega) (by norm_num), min_le_right _ _⟩
        · injection h with h'
          subst h'
          exact hs
      · exact absurd h (by simp)
    · injection h with h'
      subst h'
      exact hs

theorem calculate_ato_score_bounds (tx : Transaction)
    (hist : List Transaction) (r : ℤ × List Rule)
    (h : calculate_ato_score tx hist = .ok r) : 0 ≤ r.1 ∧ r.1 ≤ 100 := by
  unfold calculate_ato_score at h
  split at h
  · exact absurd h (by simp)
  · dsimp only at h
    split_ifs at h <;> injection h with h' <;> subst h' <;> (try simp) <;> (try omega)

theorem fraudRingBase_bounds (n : ℕ) (dev : Option String) (r : ℤ × List Rule)
    (h : fraudRingBase n dev = .ok r) : 0 ≤ r.1 ∧ r.1 ≤ 100 := by
  unfold fraudRingBase at h
  split_ifs at h
  · split at h
    · injection h with h'; subst h'; norm_num
    · exact absurd h (by simp)
  · split at h
    · injection h with h'; subst h'; norm_num
    · exact absurd h (by simp)
  · injection h with h'; subst h'; norm_num
  · injection h with h'; subst h'; norm_num

theorem calculate_fraud_ring_score_bounds (tx : Transaction)
    (hist : List Transaction) (r : ℤ × List Rule)
    (h : calculate_fraud_ring_score tx hist = .ok r) : 0 ≤ r.1 ∧ r.1 ≤ 100 := by
  unfold calculate_fraud_ring_score at h
  split at h
  · exact absurd h (by simp)
  · dsimp only at h
    split at h
    · exact absurd h (by simp)
    · rename_i st1 hbase
      have hb := fraudRingBase_bounds _ _ _ hbase
      split_ifs at h <;> injection h with h' <;> subst h' <;> (try simp) <;> (try omega)

theorem hybrid_score_range (mt : Bool) (mp : Q) (lt ht : ℤ)
    (i : IndicatorScores) : 0 ≤ (calculate_hybrid_score mt mp lt ht i).1 ∧
      (calculate_hybrid_score mt mp lt ht i).1 ≤ 100 := by
  unfold calculate_hybrid_score
  dsimp only
  omega

/-- Claim C7: every emitted assessment has `risk_score` in `[0, 100]` and
all seven emitted indicator scores in `[0, 100]`, for any distance and
square-root oracles, model state, thresholds, transaction and history. -/
theorem process_single_transaction_bounds (hav : Q → Q → Q → Q → Q)
    (sqrtQ : Q → Q) (mt : Bool) (mp : Q) (lt ht : ℤ) (tx : Transaction)
    (hist : List Transaction) (a : RiskAssessment)
    (h : process_single_transaction hav sqrtQ mt mp lt ht tx hist = .ok a) :
    (0 ≤ a.risk_score ∧ a.risk_score ≤ 100) ∧
    (0 ≤ a.velocity_score ∧ a.velocity_score ≤ 100) ∧
    (0 ≤ a.geographic_score ∧ a.geographic_score ≤ 100) ∧
    (0 ≤ a.amount_score ∧ a.amount_score ≤ 100) ∧
    (0 ≤ a.card_testing_score ∧ a.card_testing_score ≤ 100) ∧
    (0 ≤ a.collusion_score ∧ a.collusion_score ≤ 100) ∧
    (0 ≤ a.ato_score ∧ a.ato_score ≤ 100) ∧
    (0 ≤ a.fraud_ring_score ∧ a.fraud_ring_score ≤ 100) := by
  unfold process_single_transaction at h
  simp only [bind, Except.bind] at h
  cases hv : calculate_velocity_score tx hist with
  | error e => rw [hv] at h; exact absurd h (by simp)
  | ok pv =>
  obtain ⟨vs, vr⟩ := pv
  rw [hv] at h
  dsimp only at h
  cases hg : calculate_geographic_score hav tx hist with
  | error e => rw [hg] at h; exact absurd h (by simp)
  | ok pg =>
  obtain ⟨gs, gr⟩ := pg
  rw [hg] at h
  dsimp only at h
  cases ham : calculate_amount_score sqrtQ tx hist with
  | error e => rw [ham] at h; exact absurd h (by simp)
  | ok pa =>
  obtain ⟨ams, amr⟩ := pa
  rw [ham] at h
  dsimp only at h
  cases hct : calculate_card_testing_score tx hist with
  | error e => rw [hct] at h; exact absurd h (by simp)
  | ok pc =>
  obtain ⟨cts, ctr⟩ := pc
  rw [hct] at h
  dsimp only at h
  cases hco : calculate_collusion_score hav tx hist with
  | error e => rw [hco] at h; exact absurd h (by simp)
  | ok pl =>
  obtain ⟨cos, cor⟩ := pl
  rw [hco] at h
  dsimp only at h
  cases hat : calculate_ato_score tx hist with
  | error e => rw [hat] at h; exact absurd h (by simp)
  | ok pt =>
  obtain ⟨ats, atr⟩ := pt
  rw [hat] at h
  dsimp only at h
  cases hfr : calculate_fraud_ring_score tx hist with
  | error e => rw [hfr] at h; exact absurd h (by simp)
  | ok pf =>
  obtain ⟨frs, frr⟩ := pf
  rw [hfr] at h
  dsimp only at h
  rcases hhy : calculate_hybrid_score mt mp lt ht ⟨vs, gs, ams, cts, cos, ats, frs⟩
    with ⟨fs, rl, ms⟩
  rw [hhy] at h
  dsimp only at h
  split at h
  · exact absurd h (by simp)
  · injection h with h'
    subst h'
    have h1 := hybrid_score_range mt mp lt ht ⟨vs, gs, ams, cts, cos, ats, frs⟩
    rw [hhy] at h1
    have h2 := calculate_velocity_score_bounds tx hist _ hv
    have h3 := calculate_geographic_score_bounds hav tx hist _ hg
    have h4 := calculate_amount_score_bounds sqrtQ tx hist _ ham
    have h5 := calculate_card_testing_score_bounds tx hist _ hct
    have h6 := calculate_collusion_score_bounds hav tx hist _ hco
    have h7 := calculate_ato_score_bounds tx hist _ hat
    have h8 := calculate_fraud_ring_score_bounds tx hist _ hfr
    exact ⟨h1, h2, h3, h4, h5, h6, h7, h8⟩

/-- Witness for C7: the concrete assessment of `txOne` against the empty
history. -/
theorem process_single_transaction_bounds_witness :
    (0 ≤ assessOne.risk_score ∧ assessOne.risk_score ≤ 100) ∧
    (0 ≤ assessOne.velocity_score ∧ assessOne.velocity_score ≤ 100) ∧
    (0 ≤ assessOne.geographic_score ∧ assessOne.geographic_score ≤ 100) ∧
    (0 ≤ assessOne.amount_score ∧ assessOne.amount_score ≤ 100) ∧
    (0 ≤ assessOne.card_testing_score ∧ assessOne.card_testing_score ≤ 100) ∧
    (0 ≤ assessOne.collusion_score ∧ assessOne.collusion_score ≤ 100) ∧
    (0 ≤ assessOne.ato_score ∧ assessOne.ato_score ≤ 100) ∧
    (0 ≤ assessOne.fraud_ring_score ∧ assessOne.fraud_ring_score ≤ 100) :=
  process_single_transaction_bounds hav0 sqrt0 false (Q.ofInt 0) 30 60 txOne []
    assessOne (by decide)

/-! ## Claim C10 — `process_batch` does not mutate the seed history -/

theorem storeGet_alloc (s : ListStore) (xs : List Transaction) (r : ℕ)
    (h : r < s.lists.length) : storeGet (storeAlloc s xs).2 r = storeGet s r := by
  unfold storeGet storeAlloc
  dsimp only
  rw [List.getD_append _ _ _ _ h]

theorem storeGet_append_ne (s : ListStore) (r r' : ℕ) (t : Transaction)
    (h : r ≠ r') : storeGet (storeAppend s r' t) r = storeGet s r := by
  unfold storeGet storeAppend
  dsimp only
  rw [List.getD_eq_getElem?_getD, List.getElem?_set_ne (by omega),
    ← List.getD_eq_getElem?_getD]

/-- Mutation is observable in the store model: appending through a live
reference changes what it dereferences to (so the frame theorem below is
not vacuous). -/
theorem storeGet_append_self (s : ListStore) (r : ℕ) (t : Transaction)
    (h : r < s.lists.length) :
    storeGet (storeAppend s r t) r = storeGet s r ++ [t] := by
  unfold storeGet storeAppend
  dsimp only
  rw [List.getD_eq_getElem?_getD, List.getElem?_set_eq_of_lt _ (by simpa using h)]
  simp only [Option.getD_some]
  rfl

theorem processBatchLoop_preserves (hav : Q → Q → Q → Q → Q) (sqrtQ : Q → Q)
    (mt : Bool) (mp : Q) (lt ht : ℤ) (batch : List Transaction) (ctx : ℕ)
    (s : ListStore) (acc : List RiskAssessment) (r : ℕ) (h : r ≠ ctx) :
    storeGet ((processBatchLoop hav sqrtQ mt mp lt ht batch ctx s acc).2) r =
      storeGet s r := by
  induction batch generalizing s acc with
  | nil => rfl
  | cons txn rest ih =>
    unfold processBatchLoop
    split
    · rfl
    · calc storeGet ((processBatchLoop hav sqrtQ mt mp lt ht rest ctx
            (storeAppend s ctx txn) (_ :: acc)).2) r
          = storeGet (storeAppend s ctx txn) r := ih _ _
      _ = storeGet s r := storeGet_append_ne _ _ _ _ h

/-- Claim C10: `process_batch` never mutates the caller's seed-history list
object.  `running_context = list(all_transactions)` allocates a fresh copy,
and batch transactions are appended only to that copy, so after the call
the caller's object holds exactly its original elements in their original
order. -/
theorem process_batch_preserves_seed (hav : Q → Q → Q → Q → Q) (sqrtQ : Q → Q)
    (mt : Bool) (mp : Q) (lt ht : ℤ) (batch : List Transaction) (ref : ℕ)
    (s : ListStore) (h : ref < s.lists.length) :
    storeGet ((process_batch hav sqrtQ mt mp lt ht batch ref s).2) ref =
      storeGet s ref := by
  unfold process_batch
  dsimp only
  rw [processBatchLoop_preserves hav sqrtQ mt mp lt ht batch _ _ [] ref (by
    unfold storeAlloc
    dsimp only
    omega)]
  exact storeGet_alloc s _ ref h

/-- Witness for C10: one seed transaction, one batch transaction — the
caller's list object still holds exactly the seed afterwards. -/
theorem process_batch_preserves_seed_witness :
    storeGet ((process_batch hav0 sqrt0 false (Q.ofInt 0) 30 60 [txOne] 0
      storeW).2) 0 = storeGet storeW 0 :=
  process_batch_preserves_seed hav0 sqrt0 false (Q.ofInt 0) 30 60 [txOne] 0
    storeW (by decide)

end RiskEngine
